import Mathlib

/-!
Shallow embedding of `src/starlette/response.py` (the `Response`,
`StreamingResponse` and `FileResponse` classes) and proofs about it.

Bytes are modelled as `List Nat` (each element a byte value), header names
and values as latin-1-decodable `String`s, and the ASGI messages sent over
the channel as an explicit inductive type.  Async transmission is modelled
as the pure list of messages a call to `__call__` passes to `send`.
-/

namespace Starlette

/-- The class attribute `Response.charset = "utf-8"`. -/
def charset : String := "utf-8"

/-- ASCII lower-casing of one character (header names are ASCII). -/
def lowerChar (c : Char) : Char :=
  if 65 ≤ c.toNat ∧ c.toNat ≤ 90 then Char.ofNat (c.toNat + 32) else c

/-- Python `str.lower()` on ASCII strings. -/
def lowerStr (s : String) : String := ⟨s.data.map lowerChar⟩

/-- Python `str.startswith(pre)`. -/
def strStartsWith (s pre : String) : Bool := pre.data.isPrefixOf s.data

/-- Python `str.endswith(suf)`. -/
def strEndsWith (s suf : String) : Bool := suf.data.isSuffixOf s.data

/-- The UTF-8 bytes of one code point. -/
def utf8Bytes (n : Nat) : List Nat :=
  if n < 128 then [n]
  else if n < 2048 then [192 + n / 64, 128 + n % 64]
  else if n < 65536 then [224 + n / 4096, 128 + n / 64 % 64, 128 + n % 64]
  else [240 + n / 262144, 128 + n / 4096 % 64, 128 + n / 64 % 64, 128 + n % 64]

/-- Python `str.encode(charset)` for `charset = "utf-8"`: the UTF-8 bytes of a
string, as a list of byte values. -/
def encodeStr (s : String) : List Nat :=
  (s.data.map (fun c => utf8Bytes c.toNat)).flatten

/-- Python content passed to `Response.__init__` / `render`: raw `bytes`,
`str`, or any other object (which has no `.encode` method). -/
inductive PyContent where
  | bytes (b : List Nat)
  | str (s : String)
  | other
deriving DecidableEq, Repr

/-- The failure of `Response.render` on content that is neither bytes nor
text (Python raises `AttributeError` since the object has no `.encode`;
the spec calls this failure `EncodingError`). -/
inductive EncodingError where
  | noEncodeMethod
deriving DecidableEq, Repr

/-- Model of `Response.render`: identity on bytes, `content.encode(self.charset)`
on text, failure otherwise. -/
def render (content : PyContent) : Except EncodingError (List Nat) :=
  match content with
  | .bytes b => .ok b
  | .str s => .ok (encodeStr s)
  | .other => .error .noEncodeMethod

/-- A raw header sequence: ordered (name, value) pairs. -/
abbrev Hdrs := List (String × String)

/-- Model of `Response.init_headers`: synthesize the raw header sequence from the
optional caller-supplied headers mapping, the body (absent when `self.body`
was never assigned, as in `StreamingResponse` / `FileResponse`), and the
media type.  Mirrors the source line by line, including the fact that the
`populate_content_length` / `populate_content_type` flags are set to
whether the corresponding name IS among the supplied keys. -/
def init_headers (headers : Option Hdrs) (body : Option (List Nat))
    (media_type : Option String) : Hdrs :=
  let (raw_headers, populate_content_length, populate_content_type) :=
    match headers with
    | none => (([] : Hdrs), true, true)
    | some hs =>
      let raw : Hdrs := hs.map (fun (kv : String × String) => (lowerStr kv.1, kv.2))
      let keys := raw.map (fun (h : String × String) => h.1)
      (raw, keys.contains "content-length", keys.contains "content-type")
  let raw_headers :=
    match body with
    | some b =>
      if populate_content_length then
        raw_headers ++ [("content-length", toString b.length)]
      else raw_headers
    | none => raw_headers
  match media_type with
  | some ct =>
    if populate_content_type then
      let ct := if strStartsWith ct "text/" then ct ++ "; charset=" ++ charset else ct
      raw_headers ++ [("content-type", ct)]
    else raw_headers
  | none => raw_headers

/-- A constructed base `Response`: rendered body, status code, media type
and the frozen raw header sequence. -/
structure Response where
  body : List Nat
  status_code : Nat
  media_type : Option String
  raw_headers : Hdrs
deriving DecidableEq, Repr

/-- The body of `Response.__init__` after `render` succeeded: store the
body and status, resolve the media type against the class attribute
(`media_type = None` on the base class), and run `init_headers`. -/
def Response.ofBody (body : List Nat) (status_code : Nat) (headers : Option Hdrs)
    (media_type : Option String) (classMediaType : Option String) : Response :=
  let mt := match media_type with
    | some m => some m
    | none => classMediaType
  { body := body
    status_code := status_code
    media_type := mt
    raw_headers := init_headers headers (some body) mt }

/-- Model of `Response.__init__`: render the content first (failure propagates to
the caller), then initialize the rest of the instance. -/
def Response.make (content : PyContent) (status_code : Nat)
    (headers : Option Hdrs) (media_type : Option String)
    (classMediaType : Option String) : Except EncodingError Response :=
  (render content).map
    (fun body => Response.ofBody body status_code headers media_type classMediaType)

/-- An ASGI message as passed to `send`: either an `http.response.start`
dict (status plus headers) or an `http.response.body` dict (body bytes
plus the `more_body` key, `none` when the key is omitted). -/
inductive Msg where
  | start (status : Nat) (headers : Hdrs)
  | body (body : List Nat) (more_body : Option Bool)
deriving DecidableEq, Repr

/-- Whether a message is a body-message. -/
def Msg.isBody : Msg → Bool
  | .start _ _ => false
  | .body _ _ => true

/-- The headers carried by the leading start-message of a transmission,
when there is one. -/
def startHeaders : List Msg → Hdrs
  | Msg.start _ hs :: _ => hs
  | _ => []

/-- The effective ASGI continuation flag of a body-message: `more_body`
defaults to `False` when the key is absent from the dict. -/
def Msg.effectiveMore : Msg → Bool
  | .start _ _ => false
  | .body _ mb => mb.getD false

/-- Model of `Response.__call__`: send the start-message, then one body-message
with the full body (the dict has no `more_body` key). -/
def Response.call (r : Response) : List Msg :=
  [Msg.start r.status_code r.raw_headers, Msg.body r.body none]

/-! ## StreamingResponse -/

/-- A chunk produced by the streaming body iterator: either bytes, or text
that the transmission loop encodes with the charset. -/
inductive Chunk where
  | bytes (b : List Nat)
  | str (s : String)
deriving DecidableEq, Repr

/-- The encoding applied to each chunk in `StreamingResponse.__call__`:
bytes pass through, text is encoded with the charset. -/
def Chunk.toBytes : Chunk → List Nat
  | .bytes b => b
  | .str s => encodeStr s

/-- A constructed `StreamingResponse`.  `__init__` stores the iterator in
`self.body_iterator` and never assigns `self.body`, so `init_headers` sees
no body. -/
structure StreamingResponse where
  body_iterator : List Chunk
  status_code : Nat
  media_type : Option String
  raw_headers : Hdrs
deriving DecidableEq, Repr

/-- Model of `StreamingResponse.__init__`. -/
def StreamingResponse.make (content : List Chunk) (status_code : Nat)
    (headers : Option Hdrs) (media_type : Option String)
    (classMediaType : Option String) : StreamingResponse :=
  let mt := match media_type with
    | some m => some m
    | none => classMediaType
  { body_iterator := content
    status_code := status_code
    media_type := mt
    raw_headers := init_headers headers none mt }

/-- The `async for` loop of `StreamingResponse.__call__`: one body-message
per chunk with `more_body=True`, then a final empty body-message with
`more_body=False` after the iterator is exhausted. -/
def streamBody : List Chunk → List Msg
  | [] => [Msg.body [] (some false)]
  | c :: rest => Msg.body c.toBytes (some true) :: streamBody rest

/-- Model of `StreamingResponse.__call__`: start-message, then the body loop. -/
def StreamingResponse.call (r : StreamingResponse) : List Msg :=
  Msg.start r.status_code r.raw_headers :: streamBody r.body_iterator

/-! ## FileResponse: collaborator models

`MutableHeaders` lives in `starlette/datastructures.py`, which is not part
of the sources here; its set-if-absent contract is modelled from the spec.
`formatdate`, `hashlib.md5` and `mimetypes.guess_type` are Python standard
library functions, implemented here so every definition is executable. -/

/-- Whether the raw sequence already holds a header with this
case-insensitively normalized name. -/
def hasHeader (raw : Hdrs) (name : String) : Bool :=
  raw.any (fun kv => lowerStr kv.1 == lowerStr name)

/-- Modelled from the spec: `MutableHeaders.setdefault` (the header
container's set-if-absent operation, `starlette/datastructures.py`, not
under `src/`): it "must check the already-synthesized sequence and must
not duplicate an existing case-insensitive name", and writes through to
the same raw sequence that is transmitted. -/
def setdefault (raw : Hdrs) (name value : String) : Hdrs :=
  if hasHeader raw name then raw else raw ++ [(lowerStr name, value)]

/-- Models `mimetypes.guess_type`, restricted to a few common extensions
(the claims never depend on the exact table, only on the `or
"text/plain"` fallback in `FileResponse.__init__`). -/
def guess_type (name : String) : Option String :=
  if strEndsWith name ".html" then some "text/html"
  else if strEndsWith name ".txt" then some "text/plain"
  else if strEndsWith name ".json" then some "application/json"
  else if strEndsWith name ".png" then some "image/png"
  else if strEndsWith name ".bin" then some "application/octet-stream"
  else none

/-! ### Model of `email.utils.formatdate(timeval, usegmt=True)`

Models the RFC-1123-style GMT HTTP-date produced by the Python standard
library for a nonnegative whole-second epoch time. -/

/-- Gregorian leap-year test. -/
def isLeap (y : Nat) : Bool :=
  (y % 4 == 0 && y % 100 != 0) || y % 400 == 0

/-- Days in a Gregorian year. -/
def daysInYear (y : Nat) : Nat := if isLeap y then 366 else 365

/-- Fuel-driven loop for `yearAndDay`; each step consumes at least 365
days, so `days + 1` fuel always suffices. -/
def yearAndDayGo : Nat → Nat → Nat → Nat × Nat
  | 0, y, days => (y, days)
  | fuel + 1, y, days =>
    if days < daysInYear y then (y, days)
    else yearAndDayGo fuel (y + 1) (days - daysInYear y)

/-- From a start year and a day count, the year containing that day and
the 0-based day of that year. -/
def yearAndDay (y days : Nat) : Nat × Nat := yearAndDayGo (days + 1) y days

/-- Month lengths of a Gregorian year. -/
def monthLengths (y : Nat) : List Nat :=
  [31, if isLeap y then 29 else 28, 31, 30, 31, 30, 31, 31, 30, 31, 30, 31]

/-- From remaining month lengths, a 0-based month index accumulator and a
0-based day of year: the month index and 1-based day of month. -/
def monthAndDay : List Nat → Nat → Nat → Nat × Nat
  | [], m, yday => (m, yday + 1)
  | len :: rest, m, yday =>
    if yday < len then (m, yday + 1) else monthAndDay rest (m + 1) (yday - len)

/-- Zero-padded two-digit decimal. -/
def pad2 (n : Nat) : String :=
  if n < 10 then "0" ++ toString n else toString n

/-- Python `email.utils.formatdate(timeval, usegmt=True)` on a nonnegative
whole-second epoch time: e.g. `"Thu, 01 Jan 1970 00:16:40 GMT"`. -/
def formatdate (timeval : Nat) : String :=
  let days := timeval / 86400
  let rem := timeval % 86400
  let hh := rem / 3600
  let mi := rem % 3600 / 60
  let ss := rem % 60
  let wday := (days + 3) % 7
  let yd := yearAndDay 1970 days
  let md := monthAndDay (monthLengths yd.1) 0 yd.2
  (["Mon", "Tue", "Wed", "Thu", "Fri", "Sat", "Sun"].getD wday "") ++ ", " ++
    pad2 md.2 ++ " " ++
    (["Jan", "Feb", "Mar", "Apr", "May", "Jun",
      "Jul", "Aug", "Sep", "Oct", "Nov", "Dec"].getD md.1 "") ++ " " ++
    toString yd.1 ++ " " ++ pad2 hh ++ ":" ++ pad2 mi ++ ":" ++ pad2 ss ++ " GMT"

/-! ### Model of `hashlib.md5(...).hexdigest()`

A complete executable MD5 over byte lists, with 32-bit words as `Nat`
reduced mod `2^32`. -/

/-- Constant `2^32`. -/
def M32 : Nat := 4294967296

/-- 32-bit left rotation. -/
def rotl32 (x c : Nat) : Nat :=
  ((x <<< c) % M32) ||| (x >>> (32 - c))

/-- 32-bit bitwise complement. -/
def not32 (x : Nat) : Nat := Nat.xor x (M32 - 1)

/-- The 64 MD5 sine-derived constants. -/
def md5K : List Nat :=
  [0xd76aa478, 0xe8c7b756, 0x242070db, 0xc1bdceee,
   0xf57c0faf, 0x4787c62a, 0xa8304613, 0xfd469501,
   0x698098d8, 0x8b44f7af, 0xffff5bb1, 0x895cd7be,
   0x6b901122, 0xfd987193, 0xa679438e, 0x49b40821,
   0xf61e2562, 0xc040b340, 0x265e5a51, 0xe9b6c7aa,
   0xd62f105d, 0x02441453, 0xd8a1e681, 0xe7d3fbc8,
   0x21e1cde6, 0xc33707d6, 0xf4d50d87, 0x455a14ed,
   0xa9e3e905, 0xfcefa3f8, 0x676f02d9, 0x8d2a4c8a,
   0xfffa3942, 0x8771f681, 0x6d9d6122, 0xfde5380c,
   0xa4beea44, 0x4bdecfa9, 0xf6bb4b60, 0xbebfbc70,
   0x289b7ec6, 0xeaa127fa, 0xd4ef3085, 0x04881d05,
   0xd9d4d039, 0xe6db99e5, 0x1fa27cf8, 0xc4ac5665,
   0xf4292244, 0x432aff97, 0xab9423a7, 0xfc93a039,
   0x655b59c3, 0x8f0ccc92, 0xffeff47d, 0x85845dd1,
   0x6fa87e4f, 0xfe2ce6e0, 0xa3014314, 0x4e0811a1,
   0xf7537e82, 0xbd3af235, 0x2ad7d2bb, 0xeb86d391]

/-- The 64 MD5 per-round left-rotation amounts. -/
def md5S : List Nat :=
  [7, 12, 17, 22, 7, 12, 17, 22, 7, 12, 17, 22, 7, 12, 17, 22,
   5, 9, 14, 20, 5, 9, 14, 20, 5, 9, 14, 20, 5, 9, 14, 20,
   4, 11, 16, 23, 4, 11, 16, 23, 4, 11, 16, 23, 4, 11, 16, 23,
   6, 10, 15, 21, 6, 10, 15, 21, 6, 10, 15, 21, 6, 10, 15, 21]

/-- One MD5 operation: `M` is the 16-word message schedule of the current
block, `st` the running `(a, b, c, d)` state, `i` the operation index. -/
def md5Round (M : List Nat) (st : Nat × Nat × Nat × Nat) (i : Nat) :
    Nat × Nat × Nat × Nat :=
  let (a, b, c, d) := st
  let fg : Nat × Nat :=
    if i < 16 then ((b &&& c) ||| (not32 b &&& d), i)
    else if i < 32 then ((d &&& b) ||| (not32 d &&& c), (5 * i + 1) % 16)
    else if i < 48 then (b ^^^ c ^^^ d, (3 * i + 5) % 16)
    else (c ^^^ (b ||| not32 d), (7 * i) % 16)
  let f := (fg.1 + a + md5K.getD i 0 + M.getD fg.2 0) % M32
  (d, (b + rotl32 f (md5S.getD i 0)) % M32, b, c)

/-- Process one 64-byte block: build the 16 little-endian words, run the
64 operations, and add the result into the state. -/
def md5Block (st : Nat × Nat × Nat × Nat) (block : List Nat) :
    Nat × Nat × Nat × Nat :=
  let M := (List.range 16).map (fun j =>
    block.getD (4 * j) 0 + block.getD (4 * j + 1) 0 * 256 +
      block.getD (4 * j + 2) 0 * 65536 + block.getD (4 * j + 3) 0 * 16777216)
  let r := (List.range 64).foldl (md5Round M) st
  ((st.1 + r.1) % M32, (st.2.1 + r.2.1) % M32,
   (st.2.2.1 + r.2.2.1) % M32, (st.2.2.2 + r.2.2.2) % M32)

/-- MD5 padding: a `0x80` byte, zeros to 56 mod 64, then the bit length
as eight little-endian bytes. -/
def md5Pad (msg : List Nat) : List Nat :=
  msg ++ [128] ++ List.replicate ((119 - msg.length % 64) % 64) 0 ++
    (List.range 8).map (fun j => msg.length * 8 / 256 ^ j % 256)

/-- Fuel-driven 64-byte block splitter; each step drops at least one
byte, so `l.length` fuel always suffices for a nonempty tail. -/
def toBlocksGo : Nat → List Nat → List (List Nat)
  | 0, _ => []
  | fuel + 1, l =>
    if l = [] then [] else l.take 64 :: toBlocksGo fuel (l.drop 64)

/-- Split a padded message into 64-byte blocks. -/
def toBlocks (l : List Nat) : List (List Nat) := toBlocksGo l.length l

/-- A lowercase hexadecimal digit. -/
def hexDigit (n : Nat) : String :=
  ["0", "1", "2", "3", "4", "5", "6", "7",
   "8", "9", "a", "b", "c", "d", "e", "f"].getD n "0"

/-- A byte as two lowercase hexadecimal digits. -/
def byteToHex (b : Nat) : String := hexDigit (b / 16) ++ hexDigit (b % 16)

/-- A 32-bit word as four little-endian bytes. -/
def wordLEBytes (w : Nat) : List Nat :=
  [w % 256, w / 256 % 256, w / 65536 % 256, w / 16777216 % 256]

/-- Python `hashlib.md5(msg).hexdigest()`. -/
def md5hex (msg : List Nat) : String :=
  let st := (toBlocks (md5Pad msg)).foldl md5Block
    (1732584193, 4023233417, 2562383102, 271733878)
  String.join ((wordLEBytes st.1 ++ wordLEBytes st.2.1 ++
    wordLEBytes st.2.2.1 ++ wordLEBytes st.2.2.2).map byteToHex)

/-! ## FileResponse -/

/-- An `os.stat_result` as `FileResponse` uses it.  `st_mtime` is a Python
float of seconds since the epoch; the model restricts it to nonnegative
whole seconds (`st_mtime`) and carries its Python `str(...)` form
separately (`st_mtime_repr`, e.g. `"1000.0"`), which is what
`set_stat_headers` concatenates into the etag base. -/
structure StatResult where
  st_size : Nat
  st_mtime : Nat
  st_mtime_repr : String
deriving DecidableEq, Repr

/-- Model of `FileResponse.set_stat_headers`: set (if absent) the content-length,
last-modified and etag headers computed from the stat metadata, writing
through to the raw header sequence. -/
def set_stat_headers (raw : Hdrs) (stat : StatResult) : Hdrs :=
  let content_length := toString stat.st_size
  let last_modified := formatdate stat.st_mtime
  let etag_base := stat.st_mtime_repr ++ "-" ++ toString stat.st_size
  let etag := md5hex (encodeStr etag_base)
  setdefault (setdefault (setdefault raw "content-length" content_length)
    "last-modified" last_modified) "etag" etag

/-- A constructed `FileResponse`.  The constructor takes no status-code
parameter and never assigns `self.body`. -/
structure FileResponse where
  path : String
  status_code : Nat
  filename : Option String
  media_type : String
  raw_headers : Hdrs
  stat_result : Option StatResult
deriving DecidableEq, Repr

/-- Model of `FileResponse.__init__`: fix status 200, resolve the media type
(guessed from `filename or path` when not supplied, with `"text/plain"`
fallback), run `init_headers` (no body), set the disposition header when
a filename is given, and apply `set_stat_headers` when stat metadata was
supplied. -/
def FileResponse.make (path : String) (headers : Option Hdrs)
    (media_type : Option String) (filename : Option String)
    (stat_result : Option StatResult) : FileResponse :=
  let mt := match media_type with
    | some m => m
    | none =>
      let nameForGuess := match filename with
        | some f => if f = "" then path else f
        | none => path
      (guess_type nameForGuess).getD "text/plain"
  let raw := init_headers headers none (some mt)
  let raw := match filename with
    | some f =>
      setdefault raw "content-disposition"
        ("attachment; filename=\"" ++ f ++ "\"")
    | none => raw
  let raw := match stat_result with
    | some st => set_stat_headers raw st
    | none => raw
  { path := path
    status_code := 200
    filename := filename
    media_type := mt
    raw_headers := raw
    stat_result := stat_result }

/-- The class attribute `FileResponse.chunk_size`. -/
def chunk_size : Nat := 4096

/-- Fuel-driven read loop; each iteration consumes a full chunk of the
remaining data, so `data.length + 1` fuel always suffices. -/
def fileChunksGo : Nat → List Nat → List (List Nat)
  | 0, data => [data.take chunk_size]
  | fuel + 1, data =>
    if (data.take chunk_size).length = chunk_size then
      data.take chunk_size :: fileChunksGo fuel (data.drop chunk_size)
    else
      [data.take chunk_size]

/-- The chunked read loop of `FileResponse.__call__`: read `chunk_size`
bytes at a time; the loop continues exactly while a read returns a full
chunk, so the last chunk is the first short (possibly empty) one. -/
def fileChunks (data : List Nat) : List (List Nat) :=
  fileChunksGo (data.length + 1) data

/-- Model of `FileResponse.__call__`, with the transmission-time collaborators as
arguments: `fetched` is what `aio_stat(self.path)` returns (used only
when no stat was supplied at construction) and `data` the file's bytes.
It sends the start-message with the now-final headers and then one
body-message per chunk — each with the literal `"more_body": False` of
the source. -/
def FileResponse.call (r : FileResponse) (fetched : StatResult)
    (data : List Nat) : List Msg :=
  let raw := match r.stat_result with
    | some _ => r.raw_headers
    | none => set_stat_headers r.raw_headers fetched
  Msg.start r.status_code raw ::
    (fileChunks data).map (fun c => Msg.body c (some false))

/-! ## Validation of the collaborator models against known values -/

set_option maxRecDepth 16000

/-- MD5 of the empty message, RFC 1321 test vector. -/
theorem md5hex_empty : md5hex [] = "d41d8cd98f00b204e9800998ecf8427e" := by decide

/-- MD5 of `"abc"`, RFC 1321 test vector. -/
theorem md5hex_abc :
    md5hex (encodeStr "abc") = "900150983cd24fb0d6963f7d28e17f72" := by decide

/-- HTTP-date of epoch 1000. -/
theorem formatdate_epoch1000 :
    formatdate 1000 = "Thu, 01 Jan 1970 00:16:40 GMT" := by decide

/-- HTTP-date of a leap-day timestamp. -/
theorem formatdate_leap_day :
    formatdate 951825600 = "Tue, 29 Feb 2000 12:00:00 GMT" := by decide

/-! ## Helper lemmas -/

theorem hasHeader_nil (n : String) : hasHeader [] n = false := rfl

theorem hasHeader_cons (a b n : String) (raw : Hdrs) :
    hasHeader ((a, b) :: raw) n = ((lowerStr a == lowerStr n) || hasHeader raw n) := by
  simp [hasHeader]

theorem hasHeader_append (raw1 raw2 : Hdrs) (n : String) :
    hasHeader (raw1 ++ raw2) n = (hasHeader raw1 n || hasHeader raw2 n) := by
  simp [hasHeader, List.any_append]

theorem lowerStr_content_type : lowerStr "content-type" = "content-type" := by decide

theorem lowerStr_content_disposition :
    lowerStr "content-disposition" = "content-disposition" := by decide

theorem lowerStr_content_length :
    lowerStr "content-length" = "content-length" := by decide

theorem lowerStr_last_modified : lowerStr "last-modified" = "last-modified" := by decide

theorem lowerStr_etag : lowerStr "etag" = "etag" := by decide

theorem streamBody_eq (l : List Chunk) :
    streamBody l =
      l.map (fun c => Msg.body c.toBytes (some true)) ++ [Msg.body [] (some false)] := by
  induction l with
  | nil => rfl
  | cons c rest ih => simp [streamBody, ih]

theorem fileChunksGo_length_pos (fuel : Nat) (data : List Nat) :
    0 < (fileChunksGo fuel data).length := by
  cases fuel with
  | zero => simp [fileChunksGo]
  | succ n => simp only [fileChunksGo]; split <;> simp

theorem fileChunksGo_short (fuel : Nat) (data : List Nat) (h : data.length < chunk_size) :
    fileChunksGo fuel data = [data.take chunk_size] := by
  have hc : ¬((data.take chunk_size).length = chunk_size) := by
    simp only [List.length_take]
    omega
  cases fuel with
  | zero => rfl
  | succ n =>
    simp only [fileChunksGo]
    rw [if_neg hc]

theorem fileChunks_first_full (data : List Nat) (h : chunk_size < data.length) :
    fileChunks data =
      data.take chunk_size :: fileChunksGo data.length (data.drop chunk_size) := by
  have hc : (data.take chunk_size).length = chunk_size := by
    simp only [List.length_take]
    omega
  simp [fileChunks, fileChunksGo, hc]

/-! ## Claims -/

/-- C1: the claim says a caller-supplied `Content-Length: 999` with a
2-byte rendered body suppresses auto-population, leaving `999` as the
value of that header and not the computed `2`.  The code does the
opposite: `populate_content_length` is true exactly when the name IS
among the supplied keys, so the computed value `2` is appended next to
the caller's `999`.  This theorem evaluates the construction at that
failing input. -/
theorem C1_caller_header_does_not_suppress_autopopulation :
    ∃ r, Response.make (.bytes [111, 107]) 200 (some [("Content-Length", "999")]) none none =
        .ok r ∧
      r = { body := [111, 107], status_code := 200, media_type := none,
            raw_headers := [("content-length", "999"), ("content-length", "2")] } :=
  ⟨_, rfl, by decide⟩

/-- C3: the claim says the synthesized header sequence never contains two
entries with the same case-insensitively normalized name.  At the same
failing input as C1, the code produces two `content-length` entries. -/
theorem C3_duplicate_content_length_after_synthesis :
    ∃ r, Response.make (.bytes [111, 107]) 200 (some [("Content-Length", "999")]) none none =
        .ok r ∧
      (r.raw_headers.map (fun kv => lowerStr kv.1)).count "content-length" = 2 :=
  ⟨_, rfl, by decide⟩

/-- C5: for any bytes content with `headers=None`, the synthesized
sequence contains a `content-length` header whose value is the decimal
byte count, and, when a media type is set, a `content-type` header whose
value carries the `; charset=utf-8` suffix exactly when the media type
starts with `text/`. -/
theorem C5_bytes_content_default_headers (c : List Nat) (m : String) :
    ∃ r, Response.make (.bytes c) 200 none (some m) none = .ok r ∧
      ("content-length", toString c.length) ∈ r.raw_headers ∧
      ("content-type",
        if strStartsWith m "text/" then m ++ "; charset=" ++ charset else m)
        ∈ r.raw_headers ∧
    ∃ r0, Response.make (.bytes c) 200 none none none = .ok r0 ∧
      ("content-length", toString c.length) ∈ r0.raw_headers := by
  refine ⟨_, rfl, ?_, ?_, _, rfl, ?_⟩ <;> simp [Response.ofBody, init_headers]

/-- C8: transmission of a base `Response` sends exactly one start-message
carrying the status code and the frozen headers, then exactly one
body-message with the full rendered body; that body-message omits
`more_body`, whose ASGI default is `False`, so it is terminal, and no
message follows it. -/
theorem C8_base_response_transmission (r : Response) :
    r.call = [Msg.start r.status_code r.raw_headers, Msg.body r.body none] ∧
    (r.call.filter Msg.isBody).length = 1 ∧
    ∀ m ∈ r.call, Msg.isBody m = true → m.effectiveMore = false := by
  refine ⟨rfl, by simp [Response.call, Msg.isBody], ?_⟩
  intro m hm hb
  simp only [Response.call, List.mem_cons, List.mem_singleton, List.not_mem_nil,
    or_false] at hm
  rcases hm with rfl | rfl
  · simp [Msg.isBody] at hb
  · simp [Msg.effectiveMore]

/-- C9: `render` is the identity on raw bytes, charset-encodes text, and
fails with the encoding error on anything else; the failure propagates
through construction (`Response.make`). -/
theorem C9_render_behavior :
    (∀ b, render (.bytes b) = .ok b) ∧
    (∀ s, render (.str s) = .ok (encodeStr s)) ∧
    render .other = .error .noEncodeMethod ∧
    ∀ st hs mt cmt, Response.make .other st hs mt cmt = .error .noEncodeMethod := by
  exact ⟨fun b => rfl, fun s => rfl, rfl, fun st hs mt cmt => rfl⟩

/-- C4: streaming transmission over any finite chunk sequence sends the
start-message, then one body-message per chunk in order (text chunks
charset-encoded) with `more_body=True`, then exactly one final empty
body-message with `more_body=False`; exactly one message is a terminal
body-message.  Over `["a", "b"]` this is exactly four messages with
exactly one `more=false`. -/
theorem C4_streaming_transmission_shape (r : StreamingResponse) :
    r.call = Msg.start r.status_code r.raw_headers ::
      (r.body_iterator.map (fun c => Msg.body c.toBytes (some true)) ++
        [Msg.body [] (some false)]) ∧
    r.call.countP (fun m => Msg.isBody m && !m.effectiveMore) = 1 ∧
    (StreamingResponse.make [Chunk.str "a", Chunk.str "b"] 200 none none none).call =
      [Msg.start 200 [], Msg.body [97] (some true), Msg.body [98] (some true),
       Msg.body [] (some false)] := by
  refine ⟨by simp [StreamingResponse.call, streamBody_eq], ?_, by decide⟩
  simp [StreamingResponse.call, streamBody_eq, Msg.isBody, Msg.effectiveMore,
    List.countP_cons, List.countP_append, List.countP_map, Function.comp]

/-- C10: a `FileResponse` has status code 200 for every combination of
constructor arguments (the constructor takes no status-code parameter),
and the start-message sent during transmission carries status 200. -/
theorem C10_file_response_status_always_200 (path : String) (headers : Option Hdrs)
    (media_type : Option String) (filename : Option String)
    (stat_result : Option StatResult) (fetched : StatResult) (data : List Nat) :
    (FileResponse.make path headers media_type filename stat_result).status_code = 200 ∧
    ((FileResponse.make path headers media_type filename stat_result).call fetched
        data).head? =
      some (Msg.start 200
        (startHeaders
          ((FileResponse.make path headers media_type filename stat_result).call fetched
            data))) := by
  constructor
  · simp [FileResponse.make]
  · simp [FileResponse.call, FileResponse.make, startHeaders]

/-- C6: a `FileResponse` constructed with explicit stat metadata and an
explicit filename carries, before any transmission, the disposition
header `attachment; filename="<filename>"`, a `content-length` equal to
the decimal size, a `last-modified` equal to the GMT HTTP-date of the
mtime, and an `etag` equal to the MD5 hex digest of `"<mtime>-<size>"`. -/
theorem C6_stat_headers_present_at_construction (size mtime : Nat)
    (mrepr fname path : String) :
    ("content-disposition", "attachment; filename=\"" ++ fname ++ "\"")
      ∈ (FileResponse.make path none none (some fname)
          (some ⟨size, mtime, mrepr⟩)).raw_headers ∧
    ("content-length", toString size)
      ∈ (FileResponse.make path none none (some fname)
          (some ⟨size, mtime, mrepr⟩)).raw_headers ∧
    ("last-modified", formatdate mtime)
      ∈ (FileResponse.make path none none (some fname)
          (some ⟨size, mtime, mrepr⟩)).raw_headers ∧
    ("etag", md5hex (encodeStr (mrepr ++ "-" ++ toString size)))
      ∈ (FileResponse.make path none none (some fname)
          (some ⟨size, mtime, mrepr⟩)).raw_headers := by
  refine ⟨?_, ?_, ?_, ?_⟩ <;>
    simp [FileResponse.make, init_headers, set_stat_headers, setdefault,
      hasHeader_cons, hasHeader_append, hasHeader_nil, lowerStr_content_type,
      lowerStr_content_disposition, lowerStr_content_length, lowerStr_last_modified,
      lowerStr_etag]

/-- C7: a `FileResponse` constructed without stat metadata has none of
the three cache headers at construction; transmission performs the stat
fetch before sending the start-message, whose header sequence then
contains the content-length, last-modified and etag computed from the
fetched metadata. -/
theorem C7_deferred_stat_headers_in_start_message (path : String)
    (fetched : StatResult) (data : List Nat) :
    hasHeader (FileResponse.make path none none none none).raw_headers
      "content-length" = false ∧
    hasHeader (FileResponse.make path none none none none).raw_headers
      "last-modified" = false ∧
    hasHeader (FileResponse.make path none none none none).raw_headers "etag" = false ∧
    ((FileResponse.make path none none none none).call fetched data).head? =
      some (Msg.start 200
        (startHeaders ((FileResponse.make path none none none none).call fetched data))) ∧
    ("content-length", toString fetched.st_size)
      ∈ startHeaders ((FileResponse.make path none none none none).call fetched data) ∧
    ("last-modified", formatdate fetched.st_mtime)
      ∈ startHeaders ((FileResponse.make path none none none none).call fetched data) ∧
    ("etag", md5hex (encodeStr (fetched.st_mtime_repr ++ "-" ++ toString fetched.st_size)))
      ∈ startHeaders ((FileResponse.make path none none none none).call fetched data) := by
  refine ⟨?_, ?_, ?_, ?_, ?_, ?_, ?_⟩ <;>
    simp [FileResponse.make, FileResponse.call, startHeaders, init_headers,
      set_stat_headers, setdefault, hasHeader_cons, hasHeader_append, hasHeader_nil,
      lowerStr_content_type, lowerStr_content_disposition, lowerStr_content_length,
      lowerStr_last_modified, lowerStr_etag]

/-- C2: the claim says that for a file larger than the chunk size every
body-message except the last carries `more=true` and only the final one
carries `more=false`.  The code instead sends every body-message with the
literal `"more_body": False`: whenever the file exceeds the chunk size
there are at least two body-messages, the first one carries the first
full chunk with `more_body=False`, and indeed every body-message carries
`more_body=False`. -/
theorem C2_every_file_chunk_marked_terminal (r : FileResponse) (fetched : StatResult)
    (data : List Nat) (h : chunk_size < data.length) :
    2 ≤ ((r.call fetched data).drop 1).length ∧
    ((r.call fetched data).drop 1).head? =
      some (Msg.body (data.take chunk_size) (some false)) ∧
    ∀ m ∈ (r.call fetched data).drop 1, ∃ b, m = Msg.body b (some false) := by
  have hdrop : (r.call fetched data).drop 1 =
      (fileChunks data).map (fun c => Msg.body c (some false)) := by
    simp [FileResponse.call]
  have hsplit := fileChunks_first_full data h
  refine ⟨?_, ?_, ?_⟩
  · rw [hdrop, hsplit]
    simp only [List.map_cons, List.length_cons, List.length_map]
    have := fileChunksGo_length_pos data.length (data.drop chunk_size)
    omega
  · rw [hdrop, hsplit]
    simp
  · rw [hdrop]
    intro m hm
    simp only [List.mem_map] at hm
    obtain ⟨b, _, rfl⟩ := hm
    exact ⟨b, rfl⟩

/-- Witness for C2 at a concrete 5000-byte file. -/
theorem C2_every_file_chunk_marked_terminal_witness :
    chunk_size < (List.replicate 5000 (0 : Nat)).length ∧
    (2 ≤ (((FileResponse.make "big.bin" none none none
          (some ⟨5000, 1000, "1000.0"⟩)).call ⟨5000, 1000, "1000.0"⟩
          (List.replicate 5000 (0 : Nat))).drop 1).length ∧
     (((FileResponse.make "big.bin" none none none
          (some ⟨5000, 1000, "1000.0"⟩)).call ⟨5000, 1000, "1000.0"⟩
          (List.replicate 5000 (0 : Nat))).drop 1).head? =
       some (Msg.body ((List.replicate 5000 (0 : Nat)).take chunk_size) (some false)) ∧
     ∀ m ∈ ((FileResponse.make "big.bin" none none none
          (some ⟨5000, 1000, "1000.0"⟩)).call ⟨5000, 1000, "1000.0"⟩
          (List.replicate 5000 (0 : Nat))).drop 1,
       ∃ b, m = Msg.body b (some false)) :=
  ⟨by simp only [List.length_replicate, chunk_size]; omega,
   C2_every_file_chunk_marked_terminal _ _ _
     (by simp only [List.length_replicate, chunk_size]; omega)⟩

end Starlette
